import Mathlib

/-!
Verification of the receipt-printer repository (printer.js, server.js,
test scripts).  The development shallowly embeds the receipt composition
pipeline of `printReceipt` (src/printer.js) and the `POST /print` request
handler (server part) as executable Lean functions, and proves the
documented properties about them.
-/

set_option linter.unusedVariables false

namespace Receipt

/-- Printer width in pixels for 80mm paper at 203dpi (printer.js line 12). -/
def PRINTER_WIDTH_PX : Nat := 576

/-- Footer image width: `Math.round(PRINTER_WIDTH_PX * 0.8)` = 461
(printer.js line 15). -/
def FOOTER_IMAGE_WIDTH_PX : Nat := (PRINTER_WIDTH_PX * 8 + 5) / 10

/-- The divider syntax marker, the literal text of printer.js line 26. -/
def DIVIDER_MARKER : List Char := "\x7b\x7bdivider\x7d\x7d".data

/-- The constant branded footer text (printer.js lines 29-36). -/
def BRANDED_FOOTER : List Char :=
  "- - -\n\nUnusual Coffee\nVisit us at unusual.coffee\n\n- - -\n\nThank you!".data

/-- Characters removed by JavaScript's `String.prototype.trim`
(ASCII whitespace portion). -/
def isWs (c : Char) : Bool :=
  c = ' ' || c = '\t' || c = '\n' || c = '\r' || c = '\x0b' || c = '\x0c'

/-- JavaScript `s.trim()` on a character list. -/
def trimL (l : List Char) : List Char :=
  ((l.dropWhile isWs).reverse.dropWhile isWs).reverse

/-- If `l` starts with the marker `m`, return the remainder after it. -/
def dropMarker : List Char → List Char → Option (List Char)
  | [], l => some l
  | _ :: _, [] => none
  | m :: ms, c :: cs => if c = m then dropMarker ms cs else none

/-- Fuel-driven embedding of JavaScript `body.split(DIVIDER_MARKER)`:
scan left to right, break at each non-overlapping occurrence of the
marker.  `fuel` bounds the recursion; `fuel = l.length` always suffices. -/
def splitFuel : Nat → List Char → List (List Char)
  | 0, l => [l]
  | _ + 1, [] => [[]]
  | fuel + 1, c :: cs =>
    match dropMarker DIVIDER_MARKER (c :: cs) with
    | some rest => [] :: splitFuel fuel rest
    | none =>
      match splitFuel fuel cs with
      | [] => [[c]]
      | s :: ss => (c :: s) :: ss

/-- `body.split(DIVIDER_MARKER)` (printer.js line 150). -/
def splitOnMarker (l : List Char) : List (List Char) := splitFuel l.length l

/-- Number of non-overlapping, left-to-right occurrences of the divider
marker in a character list (same scan as `splitFuel`). -/
def countFuel : Nat → List Char → Nat
  | 0, _ => 0
  | _ + 1, [] => 0
  | fuel + 1, c :: cs =>
    match dropMarker DIVIDER_MARKER (c :: cs) with
    | some rest => countFuel fuel rest + 1
    | none => countFuel fuel cs

/-- The number of divider-marker occurrences in `l`. -/
def countMarker (l : List Char) : Nat := countFuel l.length l

/-- Alignment values passed to `printer.align` in printer.js. -/
inductive AlignMode
  | lt
  | ct
  | rt
deriving DecidableEq, Repr

/-- Style values passed to `printer.style` in printer.js. -/
inductive StyleMode
  | bold
  | normal
deriving DecidableEq, Repr

/-- The role of an image asset on the receipt. -/
inductive Role
  | header
  | divider
  | footer
  | bodyImg
deriving DecidableEq, Repr

/-- A print directive, one call of the `printer.*` chain in printer.js. -/
inductive Directive
  | raw (bytes : List Nat)
  | txt (s : List Char)
  | algn (a : AlignMode)
  | style (st : StyleMode)
  | raster (r : Role)
  | feed (n : Nat)
  | cut
deriving DecidableEq, Repr

/-- `ESC @` printer initialisation bytes (printer.js line 173). -/
def initBytes : List Nat := [0x1b, 0x40]

/-- `GS ( E` density 15 bytes (printer.js line 202). -/
def densityHigh : List Nat := [0x1d, 0x28, 0x45, 0x02, 0x00, 0x31, 0x0f]

/-- `GS ( E` density 8 (default) bytes (printer.js line 206). -/
def densityDefault : List Nat := [0x1d, 0x28, 0x45, 0x02, 0x00, 0x31, 0x08]

/-- The `'\n\n'` blank-feed text used throughout printer.js. -/
def nl2 : List Char := ['\n', '\n']

/-- Directives for one body segment (printer.js lines 181-184): a
whitespace-only segment emits nothing, otherwise left-align plus text. -/
def segPart (s : List Char) : List Directive :=
  if trimL s = [] then [] else [Directive.algn .lt, Directive.txt s]

/-- Directives for one gap between consecutive segments (printer.js lines
186-189): a centered divider raster when the divider image resolved. -/
def gapPart (hasDivider : Bool) : List Directive :=
  if hasDivider then [Directive.algn .ct, Directive.raster .divider] else []

/-- The `bodySegments.forEach` loop of printer.js lines 180-190: each
segment's text (when non-blank), with the divider gap after every
segment except the last. -/
def bodyBlock (hasDivider : Bool) : List (List Char) → List Directive
  | [] => []
  | s :: rest =>
    segPart s
      ++ (match rest with
          | [] => []
          | _ :: _ => gapPart hasDivider)
      ++ bodyBlock hasDivider rest

/-- Directives for the optional order details (printer.js lines 210-216):
emitted only when `orderDetails` is present and non-blank, carrying the
trimmed string. -/
def odBlock : Option (List Char) → List Directive
  | none => []
  | some s =>
    if trimL s = [] then []
    else [Directive.txt nl2, Directive.algn .lt, Directive.txt (trimL s),
          Directive.txt nl2]

/-- The full directive chain of printer.js lines 172-226, as a list. -/
def buildDirectives (hasDivider : Bool) (segs : List (List Char))
    (hasBodyImage : Bool) (orderDetails : Option (List Char))
    (hasFooter : Bool) : List Directive :=
  [Directive.raw initBytes, Directive.txt nl2, Directive.algn .ct,
   Directive.raster .header, Directive.txt nl2]
  ++ bodyBlock hasDivider segs
  ++ [Directive.txt nl2]
  ++ (if hasBodyImage then
        [Directive.algn .ct, Directive.raster .bodyImg, Directive.txt nl2]
      else [])
  ++ [Directive.algn .ct, Directive.raw densityHigh, Directive.style .bold,
      Directive.txt BRANDED_FOOTER, Directive.style .normal,
      Directive.raw densityDefault, Directive.txt nl2]
  ++ odBlock orderDetails
  ++ (if hasFooter then [Directive.algn .ct, Directive.raster .footer] else [])
  ++ [Directive.feed 3, Directive.cut]

/-- Outcome of processing one image: the sharp pipeline may fail to decode
(before the temp file is written), the escpos load may fail (after the
temp file is written), or both succeed. -/
inductive ImgOutcome
  | ok
  | decodeFail
  | loadFail
deriving DecidableEq, Repr

/-- Outcome of the network connection attempt (printer.js lines 155-166). -/
inductive ConnOutcome
  | ok
  | connFail
  | timeout
deriving DecidableEq, Repr

/-- The external world `printReceipt` consults: which asset files exist
on disk and how the image-processing and connection steps behave. -/
structure Env where
  headerExists : Bool
  dividerExists : Bool
  footerExists : Bool
  headerImg : ImgOutcome
  dividerImg : ImgOutcome
  footerImg : ImgOutcome
  bodyImg : ImgOutcome
  conn : ConnOutcome
deriving DecidableEq, Repr

/-- The request to `printReceipt`: body text, whether an uploaded body
image buffer is present, and the optional order details. -/
structure Req where
  body : List Char
  hasBodyImage : Bool
  orderDetails : Option (List Char)
deriving DecidableEq, Repr

/-- Terminal errors of `printReceipt`. -/
inductive PrintErr
  | headerMissing
  | decodeFail (r : Role)
  | loadFail (r : Role)
  | connectFail
  | connectTimeout
deriving DecidableEq, Repr

/-- A temp-file name: the role it was created for, together with the
`Date.now()` stamp in its name. -/
def TName : Type := Role × Nat
deriving instance DecidableEq, Repr for TName

/-- The temp-file name for a role at stamp `t`. -/
def tempName (r : Role) (t : Nat) : TName := (r, t)

/-- Which temp files one image-resolution step creates: none when the
asset is absent or decoding fails (the write happens after decoding),
one when the processed buffer is written out. -/
def tempsFor (present : Bool) (outc : ImgOutcome) (r : Role) (t : Nat) :
    List TName :=
  if present then
    match outc with
    | .decodeFail => []
    | _ => [tempName r t]
  else []

/-- The raster-converter invocations one image-resolution step makes:
when the asset is present, one call at the given target width. -/
def widthsFor (present : Bool) (r : Role) (w : Nat) : List (Role × Nat) :=
  if present then [(r, w)] else []

/-- The control-flow result of one image-resolution step: `ok b` with `b`
true iff the asset was present and fully resolved, or the error that
aborts the pipeline. -/
def resolveRes (present : Bool) (outc : ImgOutcome) (r : Role) :
    Except PrintErr Bool :=
  if present then
    match outc with
    | .decodeFail => Except.error (PrintErr.decodeFail r)
    | .loadFail => Except.error (PrintErr.loadFail r)
    | .ok => Except.ok true
  else Except.ok false

/-- The `finally` loop of printer.js lines 240-248: unlink every temp
file from the directory listing. -/
def unlinkAll (dir : List TName) (files : List TName) : List TName :=
  files.foldl (fun acc f => acc.filter (fun g => g ≠ f)) dir

/-- Everything observable about one `printReceipt` run: its result (the
directive list on success), the bytes actually written to the device,
the temp files created, the temp directory after the `finally` cleanup,
the widths requested from the raster converter, and whether the device
connection was closed. -/
structure Outcome where
  result : Except PrintErr (List Directive)
  emitted : List Directive
  tempCreated : List TName
  fsAfter : List TName
  widths : List (Role × Nat)
  deviceClosed : Bool
deriving Repr

/-- Assemble an `Outcome`: on an error nothing was emitted, and the
cleanup loop always runs over the created temp files. -/
def mkOutcome (dir0 : List TName) (temps : List TName)
    (ws : List (Role × Nat)) (res : Except PrintErr (List Directive))
    (closed : Bool) : Outcome :=
  { result := res
    emitted := match res with | .ok ds => ds | .error _ => []
    tempCreated := temps
    fsAfter := unlinkAll (dir0 ++ temps) temps
    widths := ws
    deviceClosed := closed }

/-- Shallow embedding of `printReceipt` (printer.js lines 79-250).
`t` is the `Date.now()` stamp used in temp-file names and `dir0` the
temp directory contents when the call starts.  Mirrors the source: hard
header precondition, optional divider/footer/body-image resolution (the
divider processed at full printer width, footer and body image at
`FOOTER_IMAGE_WIDTH_PX`), body split on the marker, the connection
attempt, the fixed directive chain, and the unconditional cleanup. -/
def printReceipt (env : Env) (req : Req) (t : Nat) (dir0 : List TName) :
    Outcome :=
  if env.headerExists = false then
    mkOutcome dir0 [] [] (Except.error PrintErr.headerMissing) false
  else
    let temps1 := tempsFor true env.headerImg .header t
    let ws1 := widthsFor true .header PRINTER_WIDTH_PX
    match resolveRes true env.headerImg .header with
    | .error e => mkOutcome dir0 temps1 ws1 (Except.error e) false
    | .ok _ =>
      let temps2 := temps1 ++ tempsFor env.dividerExists env.dividerImg .divider t
      let ws2 := ws1 ++ widthsFor env.dividerExists .divider PRINTER_WIDTH_PX
      match resolveRes env.dividerExists env.dividerImg .divider with
      | .error e => mkOutcome dir0 temps2 ws2 (Except.error e) false
      | .ok hasDivider =>
        let temps3 := temps2 ++ tempsFor env.footerExists env.footerImg .footer t
        let ws3 := ws2 ++ widthsFor env.footerExists .footer FOOTER_IMAGE_WIDTH_PX
        match resolveRes env.footerExists env.footerImg .footer with
        | .error e => mkOutcome dir0 temps3 ws3 (Except.error e) false
        | .ok hasFooter =>
          let temps4 := temps3 ++ tempsFor req.hasBodyImage env.bodyImg .bodyImg t
          let ws4 := ws3 ++ widthsFor req.hasBodyImage .bodyImg FOOTER_IMAGE_WIDTH_PX
          match resolveRes req.hasBodyImage env.bodyImg .bodyImg with
          | .error e => mkOutcome dir0 temps4 ws4 (Except.error e) false
          | .ok hasBodyImage =>
            let segs := splitOnMarker req.body
            match env.conn with
            | .timeout =>
              mkOutcome dir0 temps4 ws4 (Except.error PrintErr.connectTimeout) false
            | .connFail =>
              mkOutcome dir0 temps4 ws4 (Except.error PrintErr.connectFail) false
            | .ok =>
              mkOutcome dir0 temps4 ws4
                (Except.ok (buildDirectives hasDivider segs hasBodyImage
                  req.orderDetails hasFooter)) true

/-- Response of the `POST /print` handler. -/
structure HandlerOut where
  status : Nat
  invoked : Bool
  printedBody : Option (List Char)
deriving DecidableEq, Repr

/-- Shallow embedding of the `POST /print` handler (server source, lines
32-66): validate the body, reject over-long bodies, otherwise invoke
`printReceipt` with the trimmed body.  `printSucceeds` abstracts the
awaited `printReceipt` outcome. -/
def handlePrint (body : Option (List Char)) (printSucceeds : Bool) :
    HandlerOut :=
  match body with
  | none => ⟨400, false, none⟩
  | some b =>
    if trimL b = [] then ⟨400, false, none⟩
    else if 4000 < b.length then ⟨400, false, none⟩
    else if printSucceeds then ⟨200, true, some (trimL b)⟩
    else ⟨500, true, some (trimL b)⟩

/-- Count of divider-raster directives in a directive list. -/
def countDiv (l : List Directive) : Nat :=
  l.countP (fun d => decide (d = Directive.raster Role.divider))

/-- The raster width printer.js actually requests for each role: full
printer width for the header AND the divider, the 80% width for the
footer and body images. -/
def roleWidth : Role → Nat
  | .header => PRINTER_WIDTH_PX
  | .divider => PRINTER_WIDTH_PX
  | .footer => FOOTER_IMAGE_WIDTH_PX
  | .bodyImg => FOOTER_IMAGE_WIDTH_PX

/-- Fixture: all assets present, every processing step succeeds, and the
connection opens. -/
def envAll : Env :=
  ⟨true, true, true, ImgOutcome.ok, ImgOutcome.ok, ImgOutcome.ok,
   ImgOutcome.ok, ConnOutcome.ok⟩

/-- Fixture: the header logo file is absent. -/
def envNoHeader : Env :=
  ⟨false, true, true, ImgOutcome.ok, ImgOutcome.ok, ImgOutcome.ok,
   ImgOutcome.ok, ConnOutcome.ok⟩

/-- Fixture: assets fine, but the connection attempt times out. -/
def envTimeout : Env :=
  ⟨true, true, true, ImgOutcome.ok, ImgOutcome.ok, ImgOutcome.ok,
   ImgOutcome.ok, ConnOutcome.timeout⟩

/-- Fixture request: body `"Hello{{divider}}World"` (braces escaped), no
body image, no order details. -/
def reqHW : Req := ⟨"Hello\x7b\x7bdivider\x7d\x7dWorld".data, false, none⟩

/-- Fixture request with order details that carry outer whitespace. -/
def reqOD : Req := ⟨"Hi".data, false, some "  Order 42: oat latte  ".data⟩

/-- The directive chain of the `reqHW` fixture under `envAll`. -/
def dsHW : List Directive :=
  buildDirectives true (splitOnMarker reqHW.body) false none true

/-- The directive chain of the `reqOD` fixture under `envAll`. -/
def dsOD : List Directive :=
  buildDirectives true (splitOnMarker reqOD.body) false reqOD.orderDetails true

example : splitOnMarker "Hello\x7b\x7bdivider\x7d\x7dWorld".data
    = ["Hello".data, "World".data] := by decide

example : splitOnMarker "\x7b\x7bdivider\x7d\x7d".data = [[], []] := by decide

example : splitOnMarker "".data = [[]] := by decide

example : countMarker "a\x7b\x7bdivider\x7d\x7db\x7b\x7bdivider\x7d\x7dc".data
    = 2 := by decide

example : trimL "  hi \n".data = "hi".data := by decide

example : (printReceipt envAll reqHW 0 []).result = Except.ok dsHW := rfl

example : FOOTER_IMAGE_WIDTH_PX = 461 := by decide

theorem countDiv_nil : countDiv [] = 0 := rfl

theorem countDiv_cons (d : Directive) (l : List Directive) :
    countDiv (d :: l) =
      countDiv l + (if d = Directive.raster Role.divider then 1 else 0) := by
  simp [countDiv, List.countP_cons]

theorem countDiv_append (a b : List Directive) :
    countDiv (a ++ b) = countDiv a + countDiv b := by
  simp [countDiv, List.countP_append]

theorem countDiv_segPart (s : List Char) : countDiv (segPart s) = 0 := by
  by_cases h : trimL s = [] <;> simp [segPart, h, countDiv, List.countP_cons]

theorem countDiv_gapPart (hd : Bool) :
    countDiv (gapPart hd) = if hd then 1 else 0 := by
  cases hd <;> simp [gapPart, countDiv, List.countP_cons]

/-- Divider placement depends only on the number of segments in the
split: `k+1` segments yield `k` divider rasters when the divider image
resolved, none otherwise. -/
theorem countDiv_bodyBlock (hd : Bool) (segs : List (List Char)) :
    countDiv (bodyBlock hd segs) = if hd then segs.length - 1 else 0 := by
  induction segs with
  | nil => cases hd <;> simp [bodyBlock, countDiv]
  | cons s rest ih =>
    cases rest with
    | nil =>
      rw [bodyBlock, countDiv_append, countDiv_append, countDiv_segPart]
      cases hd <;> simp [bodyBlock, countDiv]
    | cons s2 rest2 =>
      rw [bodyBlock]
      rw [countDiv_append, countDiv_append, countDiv_segPart,
        countDiv_gapPart, ih]
      cases hd <;> (simp; try omega)

theorem countDiv_odBlock (od : Option (List Char)) :
    countDiv (odBlock od) = 0 := by
  cases od with
  | none => simp [odBlock, countDiv]
  | some s =>
    by_cases h : trimL s = [] <;>
      simp [odBlock, h, countDiv, List.countP_cons]

/-- All divider rasters of the full directive chain come from the body
block. -/
theorem countDiv_build (hd : Bool) (segs : List (List Char)) (hbi : Bool)
    (od : Option (List Char)) (hf : Bool) :
    countDiv (buildDirectives hd segs hbi od hf) =
      countDiv (bodyBlock hd segs) := by
  rw [buildDirectives]
  repeat rw [countDiv_append]
  rw [countDiv_odBlock]
  cases hbi <;> cases hf <;>
    simp [countDiv, List.countP_cons]

/-- The body block is the segment parts with the gap part interspersed
strictly between consecutive segments — never before the first and never
after the last. -/
theorem bodyBlock_eq_intersperse (hd : Bool) (segs : List (List Char)) :
    bodyBlock hd segs =
      (List.intersperse (gapPart hd) (segs.map segPart)).flatten := by
  induction segs with
  | nil => simp [bodyBlock]
  | cons s rest ih =>
    cases rest with
    | nil => simp [bodyBlock, List.intersperse]
    | cons s2 rest2 =>
      rw [bodyBlock]
      simp only [List.map_cons, List.intersperse] at ih ⊢
      rw [ih]
      simp [List.flatten, List.append_assoc]

theorem dropMarker_length :
    ∀ (m l r : List Char), dropMarker m l = some r →
      r.length + m.length = l.length := by
  intro m
  induction m with
  | nil =>
    intro l r h
    simp [dropMarker] at h
    simp [h]
  | cons x xs ih =>
    intro l r h
    cases l with
    | nil => simp [dropMarker] at h
    | cons c cs =>
      rw [dropMarker] at h
      by_cases hc : c = x
      · simp [hc] at h
        have := ih cs r h
        simp
        omega
      · simp [hc] at h

theorem dividerMarker_length : DIVIDER_MARKER.length = 11 := by decide

theorem splitFuel_ne_nil : ∀ (n : Nat) (l : List Char), splitFuel n l ≠ [] := by
  intro n l
  match n, l with
  | 0, l => simp [splitFuel]
  | n + 1, [] => simp [splitFuel]
  | n + 1, c :: cs =>
    rw [splitFuel]
    cases h : dropMarker DIVIDER_MARKER (c :: cs) with
    | some rest => simp
    | none =>
      cases h2 : splitFuel n cs with
      | nil => simp
      | cons s ss => simp

theorem splitFuel_length :
    ∀ (n : Nat) (l : List Char), l.length ≤ n →
      (splitFuel n l).length = countFuel n l + 1 := by
  intro n
  induction n with
  | zero => intro l hl; simp [splitFuel, countFuel]
  | succ n ih =>
    intro l hl
    match l with
    | [] => simp [splitFuel, countFuel]
    | c :: cs =>
      rw [splitFuel, countFuel]
      cases h : dropMarker DIVIDER_MARKER (c :: cs) with
      | some rest =>
        have hr := dropMarker_length _ _ _ h
        rw [dividerMarker_length] at hr
        simp at hr hl
        have hrest : rest.length ≤ n := by omega
        simp [ih rest hrest]
      | none =>
        have hcs : cs.length ≤ n := by simp at hl; omega
        have hlen := ih cs hcs
        cases h2 : splitFuel n cs with
        | nil => exact absurd h2 (splitFuel_ne_nil n cs)
        | cons s ss =>
          rw [h2] at hlen
          simp at hlen
          simp [hlen]

/-- Splitting the body on `k` marker occurrences yields `k+1` segments. -/
theorem splitOnMarker_length (l : List Char) :
    (splitOnMarker l).length = countMarker l + 1 :=
  splitFuel_length l.length l (Nat.le_refl _)

theorem splitOnMarker_ne_nil (l : List Char) : splitOnMarker l ≠ [] :=
  splitFuel_ne_nil l.length l

/-- Unlinking a list of files one by one is filtering them all out. -/
theorem unlinkAll_eq_filter (files : List TName) :
    ∀ dir : List TName,
      unlinkAll dir files = dir.filter (fun g => decide (g ∉ files)) := by
  induction files with
  | nil => intro dir; simp [unlinkAll]
  | cons f fs ih =>
    intro dir
    have step : unlinkAll dir (f :: fs) =
        unlinkAll (dir.filter (fun g => g ≠ f)) fs := rfl
    rw [step, ih]
    rw [List.filter_filter]
    apply List.filter_congr
    intro a ha
    by_cases h1 : a = f <;> by_cases h2 : a ∈ fs <;> simp [h1, h2]

/-- Running the cleanup loop over exactly the files this run created
restores the starting directory, provided none of the created names
collided with a pre-existing file. -/
theorem unlinkAll_restore (dir0 files : List TName)
    (h : ∀ g ∈ dir0, g ∉ files) :
    unlinkAll (dir0 ++ files) files = dir0 := by
  rw [unlinkAll_eq_filter, List.filter_append]
  have h1 : dir0.filter (fun g => decide (g ∉ files)) = dir0 := by
    apply List.filter_eq_self.mpr
    intro a ha
    simpa using h a ha
  have h2 : files.filter (fun g => decide (g ∉ files)) = [] := by
    apply List.filter_eq_nil_iff.mpr
    intro a ha
    simpa using ha
  rw [h1, h2, List.append_nil]

/-- Every temp file an image-resolution step creates carries this run's
timestamp. -/
theorem tempsFor_stamp (present : Bool) (outc : ImgOutcome) (r : Role)
    (t : Nat) : ∀ g ∈ tempsFor present outc r t, g.2 = t := by
  cases present <;> cases outc <;> simp [tempsFor, tempName]

theorem resolveRes_ok {present : Bool} {outc : ImgOutcome} {r : Role}
    {b : Bool} (h : resolveRes present outc r = Except.ok b) :
    b = present := by
  cases present <;> cases outc <;> simp_all [resolveRes]

/-- Inversion: a successful `printReceipt` run reached the connection
phase with the header present, and its directive list is exactly the
fixed chain built from the split body and the resolved optional assets. -/
theorem printReceipt_result_ok {env : Env} {req : Req} {t : Nat}
    {dir0 : List TName} {ds : List Directive}
    (h : (printReceipt env req t dir0).result = Except.ok ds) :
    env.headerExists = true ∧ env.conn = ConnOutcome.ok ∧
    ds = buildDirectives env.dividerExists (splitOnMarker req.body)
      req.hasBodyImage req.orderDetails env.footerExists := by
  unfold printReceipt at h
  by_cases hh : env.headerExists = false
  · rw [if_pos hh] at h; simp [mkOutcome] at h
  · rw [if_neg hh] at h
    cases h1 : resolveRes true env.headerImg Role.header with
    | error e => rw [h1] at h; simp [mkOutcome] at h
    | ok b1 =>
      rw [h1] at h
      cases h2 : resolveRes env.dividerExists env.dividerImg Role.divider with
      | error e => rw [h2] at h; simp [mkOutcome] at h
      | ok b2 =>
        rw [h2] at h
        cases h3 : resolveRes env.footerExists env.footerImg Role.footer with
        | error e => rw [h3] at h; simp [mkOutcome] at h
        | ok b3 =>
          rw [h3] at h
          cases h4 : resolveRes req.hasBodyImage env.bodyImg Role.bodyImg with
          | error e => rw [h4] at h; simp [mkOutcome] at h
          | ok b4 =>
            rw [h4] at h
            cases hc : env.conn with
            | timeout => rw [hc] at h; simp [mkOutcome] at h
            | connFail => rw [hc] at h; simp [mkOutcome] at h
            | ok =>
              rw [hc] at h
              simp [mkOutcome] at h
              refine ⟨by simpa using hh, rfl, ?_⟩
              rw [← h, resolveRes_ok h2, resolveRes_ok h3, resolveRes_ok h4]

theorem tempsFor_append_stamp {t : Nat} {A B : List TName}
    (hA : ∀ g ∈ A, g.2 = t) (hB : ∀ g ∈ B, g.2 = t) :
    ∀ g ∈ A ++ B, g.2 = t := by
  intro g hg
  rcases List.mem_append.mp hg with h | h
  exacts [hA g h, hB g h]

/-- Whichever path `printReceipt` takes, the `finally` cleanup restores
the temp directory, as long as no pre-existing file carries this run's
timestamp (the source relies on time-derived unique names). -/
theorem printReceipt_fsAfter (env : Env) (req : Req) (t : Nat)
    (dir0 : List TName) (hd : ∀ g ∈ dir0, g.2 ≠ t) :
    (printReceipt env req t dir0).fsAfter = dir0 := by
  have key : ∀ T : List TName, (∀ g ∈ T, g.2 = t) →
      unlinkAll (dir0 ++ T) T = dir0 := fun T hT =>
    unlinkAll_restore dir0 T (fun g hg hmem => hd g hg (hT g hmem ▸ rfl))
  unfold printReceipt
  by_cases hh : env.headerExists = false
  · rw [if_pos hh]
    simp only [mkOutcome]
    exact key [] (by simp)
  · rw [if_neg hh]
    cases h1 : resolveRes true env.headerImg Role.header with
    | error e =>
      simp only [mkOutcome]
      exact key _ (tempsFor_stamp _ _ _ _)
    | ok b1 =>
      cases h2 : resolveRes env.dividerExists env.dividerImg Role.divider with
      | error e =>
        simp only [mkOutcome]
        exact key _ (tempsFor_append_stamp (tempsFor_stamp _ _ _ _)
          (tempsFor_stamp _ _ _ _))
      | ok b2 =>
        cases h3 : resolveRes env.footerExists env.footerImg Role.footer with
        | error e =>
          simp only [mkOutcome]
          exact key _ (tempsFor_append_stamp (tempsFor_append_stamp
            (tempsFor_stamp _ _ _ _) (tempsFor_stamp _ _ _ _))
            (tempsFor_stamp _ _ _ _))
        | ok b3 =>
          cases h4 : resolveRes req.hasBodyImage env.bodyImg Role.bodyImg with
          | error e =>
            simp only [mkOutcome]
            exact key _ (tempsFor_append_stamp (tempsFor_append_stamp
              (tempsFor_append_stamp (tempsFor_stamp _ _ _ _)
                (tempsFor_stamp _ _ _ _)) (tempsFor_stamp _ _ _ _))
              (tempsFor_stamp _ _ _ _))
          | ok b4 =>
            cases hc : env.conn <;>
              · simp only [mkOutcome]
                exact key _ (tempsFor_append_stamp (tempsFor_append_stamp
                  (tempsFor_append_stamp (tempsFor_stamp _ _ _ _)
                    (tempsFor_stamp _ _ _ _)) (tempsFor_stamp _ _ _ _))
                  (tempsFor_stamp _ _ _ _))

/-- The device connection is closed exactly on the success path: every
error path of the source (header missing, decode or load failure,
connection failure, and in particular the connection timeout) returns
without calling `device.close`. -/
theorem printReceipt_closed (env : Env) (req : Req) (t : Nat)
    (dir0 : List TName) :
    (printReceipt env req t dir0).deviceClosed = true ↔
      ∃ ds, (printReceipt env req t dir0).result = Except.ok ds := by
  unfold printReceipt
  by_cases hh : env.headerExists = false
  · rw [if_pos hh]; simp [mkOutcome]
  · rw [if_neg hh]
    cases h1 : resolveRes true env.headerImg Role.header with
    | error e => simp [mkOutcome]
    | ok b1 =>
      cases h2 : resolveRes env.dividerExists env.dividerImg Role.divider with
      | error e => simp [mkOutcome]
      | ok b2 =>
        cases h3 : resolveRes env.footerExists env.footerImg Role.footer with
        | error e => simp [mkOutcome]
        | ok b3 =>
          cases h4 : resolveRes req.hasBodyImage env.bodyImg Role.bodyImg with
          | error e => simp [mkOutcome]
          | ok b4 =>
            cases hc : env.conn <;> simp [mkOutcome]

theorem widths_all_append {P : Role × Nat → Prop} {A B : List (Role × Nat)}
    (hA : ∀ p ∈ A, P p) (hB : ∀ p ∈ B, P p) : ∀ p ∈ A ++ B, P p := by
  intro p hp
  rcases List.mem_append.mp hp with h | h
  exacts [hA p h, hB p h]

theorem widths_all_For {P : Role × Nat → Prop} {present : Bool} {r : Role}
    {w : Nat} (h : P (r, w)) : ∀ p ∈ widthsFor present r w, P p := by
  cases present <;> (simp [widthsFor]; try exact h)

/-- Every raster-converter call of a `printReceipt` run uses the width
`roleWidth` assigns to its role. -/
theorem printReceipt_widths (env : Env) (req : Req) (t : Nat)
    (dir0 : List TName) :
    ∀ p ∈ (printReceipt env req t dir0).widths, p.2 = roleWidth p.1 := by
  unfold printReceipt
  by_cases hh : env.headerExists = false
  · rw [if_pos hh]; simp [mkOutcome]
  · rw [if_neg hh]
    cases h1 : resolveRes true env.headerImg Role.header with
    | error e =>
      simp only [mkOutcome]
      exact widths_all_For rfl
    | ok b1 =>
      cases h2 : resolveRes env.dividerExists env.dividerImg Role.divider with
      | error e =>
        simp only [mkOutcome]
        exact widths_all_append (widths_all_For rfl) (widths_all_For rfl)
      | ok b2 =>
        cases h3 : resolveRes env.footerExists env.footerImg Role.footer with
        | error e =>
          simp only [mkOutcome]
          exact widths_all_append (widths_all_append (widths_all_For rfl)
            (widths_all_For rfl)) (widths_all_For rfl)
        | ok b3 =>
          cases h4 : resolveRes req.hasBodyImage env.bodyImg Role.bodyImg with
          | error e =>
            simp only [mkOutcome]
            exact widths_all_append (widths_all_append (widths_all_append
              (widths_all_For rfl) (widths_all_For rfl)) (widths_all_For rfl))
              (widths_all_For rfl)
          | ok b4 =>
            cases hc : env.conn <;>
              · simp only [mkOutcome]
                exact widths_all_append (widths_all_append (widths_all_append
                  (widths_all_For rfl) (widths_all_For rfl))
                  (widths_all_For rfl)) (widths_all_For rfl)

/-- Claim C1: for bodyText with `k` divider-marker occurrences,
`printReceipt` splits it into `k+1` segments and, when the divider asset
resolved, emits exactly `k` divider rasters, each strictly between two
consecutive segments (interspersed), never before the first segment or
after the last. -/
theorem claim_C1 (env : Env) (req : Req) (t : Nat) (dir0 : List TName)
    (ds : List Directive) (hdiv : env.dividerExists = true)
    (hok : (printReceipt env req t dir0).result = Except.ok ds) :
    (splitOnMarker req.body).length = countMarker req.body + 1 ∧
    countDiv ds = countMarker req.body ∧
    bodyBlock true (splitOnMarker req.body) =
      (List.intersperse (gapPart true)
        ((splitOnMarker req.body).map segPart)).flatten := by
  obtain ⟨-, -, hds⟩ := printReceipt_result_ok hok
  refine ⟨splitOnMarker_length _, ?_, bodyBlock_eq_intersperse _ _⟩
  rw [hds, hdiv, countDiv_build, countDiv_bodyBlock, splitOnMarker_length]
  simp

/-- Witness for C1 at the `"Hello{{divider}}World"` fixture. -/
theorem claim_C1_wit :
    (splitOnMarker reqHW.body).length = countMarker reqHW.body + 1 ∧
    countDiv dsHW = countMarker reqHW.body ∧
    bodyBlock true (splitOnMarker reqHW.body) =
      (List.intersperse (gapPart true)
        ((splitOnMarker reqHW.body).map segPart)).flatten :=
  claim_C1 envAll reqHW 0 [] dsHW rfl rfl

/-- Claim C2: the directive sequence follows the fixed order init, blank
feed, centered header raster, blank feed, per-segment left-aligned text
with centered divider rasters between segments, blank feed, optional
centered body-image raster plus feed, centered bold branded footer at
elevated density restored afterward, optional order details plus feed,
optional centered footer raster, feed(3), cut; in particular for
`"Hello{{divider}}World"` the output contains header raster,
Text("Hello"), divider raster, Text("World"), branded footer, cut in
that exact order. -/
theorem claim_C2 :
    (∀ (env : Env) (req : Req) (t : Nat) (dir0 : List TName)
      (ds : List Directive),
      (printReceipt env req t dir0).result = Except.ok ds →
      ds =
        [Directive.raw initBytes, Directive.txt nl2, Directive.algn .ct,
         Directive.raster .header, Directive.txt nl2]
        ++ (List.intersperse (gapPart env.dividerExists)
              ((splitOnMarker req.body).map segPart)).flatten
        ++ [Directive.txt nl2]
        ++ (if req.hasBodyImage then
              [Directive.algn .ct, Directive.raster .bodyImg,
               Directive.txt nl2]
            else [])
        ++ [Directive.algn .ct, Directive.raw densityHigh,
            Directive.style .bold, Directive.txt BRANDED_FOOTER,
            Directive.style .normal, Directive.raw densityDefault,
            Directive.txt nl2]
        ++ odBlock req.orderDetails
        ++ (if env.footerExists then
              [Directive.algn .ct, Directive.raster .footer]
            else [])
        ++ [Directive.feed 3, Directive.cut]) ∧
    (printReceipt envAll reqHW 0 []).emitted =
      [Directive.raw initBytes, Directive.txt nl2, Directive.algn .ct,
       Directive.raster .header, Directive.txt nl2,
       Directive.algn .lt, Directive.txt "Hello".data,
       Directive.algn .ct, Directive.raster .divider,
       Directive.algn .lt, Directive.txt "World".data,
       Directive.txt nl2,
       Directive.algn .ct, Directive.raw densityHigh,
       Directive.style .bold, Directive.txt BRANDED_FOOTER,
       Directive.style .normal, Directive.raw densityDefault,
       Directive.txt nl2,
       Directive.algn .ct, Directive.raster .footer,
       Directive.feed 3, Directive.cut] ∧
    List.Sublist
      [Directive.raster .header, Directive.txt "Hello".data,
       Directive.raster .divider, Directive.txt "World".data,
       Directive.txt BRANDED_FOOTER, Directive.cut]
      (printReceipt envAll reqHW 0 []).emitted := by
  refine ⟨?_, by decide, by decide⟩
  intro env req t dir0 ds hok
  obtain ⟨-, -, hds⟩ := printReceipt_result_ok hok
  rw [hds]
  simp only [buildDirectives, bodyBlock_eq_intersperse]

/-- Witness for C2's general conjunct at the
`"Hello{{divider}}World"` fixture. -/
theorem claim_C2_wit :
    dsHW =
      [Directive.raw initBytes, Directive.txt nl2, Directive.algn .ct,
       Directive.raster .header, Directive.txt nl2]
      ++ (List.intersperse (gapPart envAll.dividerExists)
            ((splitOnMarker reqHW.body).map segPart)).flatten
      ++ [Directive.txt nl2]
      ++ (if reqHW.hasBodyImage then
            [Directive.algn .ct, Directive.raster .bodyImg,
             Directive.txt nl2]
          else [])
      ++ [Directive.algn .ct, Directive.raw densityHigh,
          Directive.style .bold, Directive.txt BRANDED_FOOTER,
          Directive.style .normal, Directive.raw densityDefault,
          Directive.txt nl2]
      ++ odBlock reqHW.orderDetails
      ++ (if envAll.footerExists then
            [Directive.algn .ct, Directive.raster .footer]
          else [])
      ++ [Directive.feed 3, Directive.cut] :=
  claim_C2.1 envAll reqHW 0 [] dsHW rfl

/-- Claim C3: whitespace-only segments emit no Text directive, yet
divider placement depends only on the split (segment count), not on
which segments are blank. -/
theorem claim_C3 :
    (∀ (hd : Bool) (segs : List (List Char)) (s : List Char),
      trimL s = [] → Directive.txt s ∉ bodyBlock hd segs) ∧
    (∀ (hd : Bool) (segs segs2 : List (List Char)),
      segs.length = segs2.length →
      countDiv (bodyBlock hd segs) = countDiv (bodyBlock hd segs2)) := by
  constructor
  · intro hd segs s hblank
    induction segs with
    | nil => simp [bodyBlock]
    | cons s0 rest ih =>
      cases rest with
      | nil =>
        rw [bodyBlock]
        simp only [bodyBlock, List.append_nil, List.mem_append, not_or]
        by_cases h0 : trimL s0 = []
        · simp [segPart, h0]
        · simp [segPart, h0]
          intro heq
          exact h0 (heq ▸ hblank)
      | cons a b =>
        rw [bodyBlock]
        simp only [List.mem_append, not_or]
        refine ⟨⟨?_, ?_⟩, ih⟩
        · by_cases h0 : trimL s0 = []
          · simp [segPart, h0]
          · simp [segPart, h0]
            intro heq
            exact h0 (heq ▸ hblank)
        · cases hd <;> simp [gapPart]
  · intro hd segs segs2 hlen
    rw [countDiv_bodyBlock, countDiv_bodyBlock, hlen]

/-- Witness for C3: a blank middle segment emits no text yet keeps both
dividers. -/
theorem claim_C3_wit :
    (Directive.txt " ".data ∉ bodyBlock true ["a".data, " ".data]) ∧
    countDiv (bodyBlock true ["a".data, " ".data, "b".data]) =
      countDiv (bodyBlock true ["a".data, "x".data, "b".data]) :=
  ⟨claim_C3.1 true ["a".data, " ".data] " ".data (by decide),
   claim_C3.2 true _ _ (by decide)⟩

/-- Claim C4: when the header logo asset is missing, `printReceipt`
fails with the asset-missing error and emits no directive, regardless of
body, body image, and order details. -/
theorem claim_C4 (env : Env) (req : Req) (t : Nat) (dir0 : List TName)
    (h : env.headerExists = false) :
    (printReceipt env req t dir0).result =
      Except.error PrintErr.headerMissing ∧
    (printReceipt env req t dir0).emitted = [] := by
  unfold printReceipt
  rw [if_pos h]
  simp [mkOutcome]

/-- Witness for C4 at the missing-header fixture. -/
theorem claim_C4_wit :
    (printReceipt envNoHeader reqOD 0 []).result =
      Except.error PrintErr.headerMissing ∧
    (printReceipt envNoHeader reqOD 0 []).emitted = [] :=
  claim_C4 envNoHeader reqOD 0 [] rfl

/-- Counterexample to C5 as stated: in the run with all assets present,
the raster converter is invoked for the divider role at the FULL printer
width (576), not at the fixed fraction (461) used for footer and body
images — printer.js line 105 passes `PRINTER_WIDTH_PX` for the divider. -/
theorem claim_C5_cex :
    ¬ (∀ p ∈ (printReceipt envAll reqHW 0 []).widths,
        (p.1 = Role.header → p.2 = PRINTER_WIDTH_PX) ∧
        (p.1 ≠ Role.header → p.2 = FOOTER_IMAGE_WIDTH_PX)) := by decide

/-- Claim C5 (amended): every raster-converter call uses the full
printer width for the header and divider roles and the fixed fraction
`FOOTER_IMAGE_WIDTH_PX` for the footer and body-image roles. -/
theorem claim_C5_amended (env : Env) (req : Req) (t : Nat)
    (dir0 : List TName) :
    ∀ p ∈ (printReceipt env req t dir0).widths, p.2 = roleWidth p.1 :=
  printReceipt_widths env req t dir0

/-- Witness for the amended C5: the divider call of the all-assets run. -/
theorem claim_C5_wit :
    (Role.divider, PRINTER_WIDTH_PX).2 =
      roleWidth (Role.divider, PRINTER_WIDTH_PX).1 :=
  claim_C5_amended envAll reqHW 0 [] (Role.divider, PRINTER_WIDTH_PX)
    (by decide)

/-- Counterexample to C6 as stated: on the timeout fixture the run does
report the timeout error, but the timeout handler of printer.js lines
156-158 only rejects — it never calls `device.close()`, so the
partially-open connection is NOT closed. -/
theorem claim_C6_cex :
    ¬ ((printReceipt envTimeout reqHW 0 []).result =
          Except.error PrintErr.connectTimeout →
       (printReceipt envTimeout reqHW 0 []).deviceClosed = true) := by
  intro himp
  exact absurd (himp rfl) (by decide)

/-- Claim C6 (amended): when the connection attempt times out the
pending operation is rejected with the timeout error and the temp files
are still cleaned up, but the partially-open connection is not closed. -/
theorem claim_C6_amended (env : Env) (req : Req) (t : Nat)
    (dir0 : List TName)
    (h : (printReceipt env req t dir0).result =
      Except.error PrintErr.connectTimeout)
    (hd : ∀ g ∈ dir0, g.2 ≠ t) :
    (printReceipt env req t dir0).deviceClosed = false ∧
    (printReceipt env req t dir0).fsAfter = dir0 := by
  refine ⟨?_, printReceipt_fsAfter env req t dir0 hd⟩
  cases hb : (printReceipt env req t dir0).deviceClosed with
  | false => rfl
  | true =>
    obtain ⟨ds, hds⟩ := (printReceipt_closed env req t dir0).mp hb
    rw [h] at hds
    exact Except.noConfusion hds

/-- Witness for the amended C6 at the timeout fixture. -/
theorem claim_C6_wit :
    (printReceipt envTimeout reqHW 0 []).deviceClosed = false ∧
    (printReceipt envTimeout reqHW 0 []).fsAfter = [] :=
  claim_C6_amended envTimeout reqHW 0 [] rfl (by simp)

/-- Claim C7: on every exit path — success, asset failure, decode
failure, load failure, connection failure, or connection timeout — the
temp files created by the run are deleted before it returns, leaving the
temp directory unchanged (given the time-stamped names are fresh). -/
theorem claim_C7 (env : Env) (req : Req) (t : Nat) (dir0 : List TName)
    (hd : ∀ g ∈ dir0, g.2 ≠ t) :
    (printReceipt env req t dir0).fsAfter = dir0 :=
  printReceipt_fsAfter env req t dir0 hd

/-- Witness for C7: a pre-existing file survives the cleanup untouched. -/
theorem claim_C7_wit :
    (printReceipt envAll reqHW 7 [(Role.header, 5)]).fsAfter =
      [(Role.header, 5)] :=
  claim_C7 envAll reqHW 7 [(Role.header, 5)] (by decide)

/-- Claim C8: a request whose body is exactly 4001 characters long is
rejected by the request boundary with a 400 status and `printReceipt`
is never invoked. -/
theorem claim_C8 (b : List Char) (ps : Bool) (h : b.length = 4001) :
    (handlePrint (some b) ps).status = 400 ∧
    (handlePrint (some b) ps).invoked = false := by
  simp only [handlePrint]
  by_cases h0 : trimL b = []
  · simp only [if_pos h0]
    constructor <;> trivial
  · simp only [if_neg h0, if_pos (show 4000 < b.length by omega)]
    constructor <;> trivial

/-- Witness for C8 with a 4001-character body. -/
theorem claim_C8_wit :
    (handlePrint (some (List.replicate 4001 'a')) true).status = 400 ∧
    (handlePrint (some (List.replicate 4001 'a')) true).invoked = false :=
  claim_C8 (List.replicate 4001 'a') true (by rw [List.length_replicate])

/-- Claim C9: when orderDetails is present and non-blank, the emitted
order-details Text directive carries the trimmed string; when it is
absent or whitespace-only, the output is identical to the output with no
order details at all. -/
theorem claim_C9 (env : Env) (req : Req) (t : Nat) (dir0 : List TName)
    (ds : List Directive)
    (hok : (printReceipt env req t dir0).result = Except.ok ds) :
    (∀ s, req.orderDetails = some s → trimL s ≠ [] →
      ∃ pre post, ds = pre ++
        [Directive.txt nl2, Directive.algn .lt, Directive.txt (trimL s),
         Directive.txt nl2] ++ post) ∧
    ((req.orderDetails = none ∨
        (∃ s, req.orderDetails = some s ∧ trimL s = [])) →
      ds = buildDirectives env.dividerExists (splitOnMarker req.body)
        req.hasBodyImage none env.footerExists) := by
  obtain ⟨-, -, hds⟩ := printReceipt_result_ok hok
  constructor
  · intro s hs hnb
    refine ⟨[Directive.raw initBytes, Directive.txt nl2, Directive.algn .ct,
       Directive.raster .header, Directive.txt nl2]
      ++ bodyBlock env.dividerExists (splitOnMarker req.body)
      ++ [Directive.txt nl2]
      ++ (if req.hasBodyImage then
            [Directive.algn .ct, Directive.raster .bodyImg, Directive.txt nl2]
          else [])
      ++ [Directive.algn .ct, Directive.raw densityHigh,
          Directive.style .bold, Directive.txt BRANDED_FOOTER,
          Directive.style .normal, Directive.raw densityDefault,
          Directive.txt nl2],
      (if env.footerExists then
         [Directive.algn .ct, Directive.raster .footer]
       else [])
      ++ [Directive.feed 3, Directive.cut], ?_⟩
    rw [hds, hs]
    have hod : odBlock (some s) =
        [Directive.txt nl2, Directive.algn .lt, Directive.txt (trimL s),
         Directive.txt nl2] := by
      rw [odBlock, if_neg hnb]
    simp only [buildDirectives, hod, List.append_assoc]
  · intro hcase
    rw [hds]
    rcases hcase with hnone | ⟨s, hs, hblank⟩
    · rw [hnone]
    · rw [hs]
      simp [buildDirectives, odBlock, hblank]

/-- Witness for C9 at the order-details fixture: the emitted text is the
trimmed order details. -/
theorem claim_C9_wit :
    ∃ pre post, dsOD = pre ++
      [Directive.txt nl2, Directive.algn .lt,
       Directive.txt (trimL "  Order 42: oat latte  ".data),
       Directive.txt nl2] ++ post :=
  (claim_C9 envAll reqOD 0 [] dsOD rfl).1 "  Order 42: oat latte  ".data
    rfl (by decide)

/-- Claim C10: directive construction is deterministic — two runs with
the same request and the same asset availability and behaviour produce
the same result and the same emitted directive sequence, regardless of
the timestamp used in temp names and of the temp-directory contents. -/
theorem claim_C10 (env : Env) (req : Req) (t1 t2 : Nat)
    (dir1 dir2 : List TName) :
    (printReceipt env req t1 dir1).result =
      (printReceipt env req t2 dir2).result ∧
    (printReceipt env req t1 dir1).emitted =
      (printReceipt env req t2 dir2).emitted := by
  unfold printReceipt
  by_cases hh : env.headerExists = false
  · simp only [if_pos hh]
    exact ⟨rfl, rfl⟩
  · simp only [if_neg hh]
    cases h1 : resolveRes true env.headerImg Role.header with
    | error e => exact ⟨rfl, rfl⟩
    | ok b1 =>
      cases h2 : resolveRes env.dividerExists env.dividerImg Role.divider with
      | error e => exact ⟨rfl, rfl⟩
      | ok b2 =>
        cases h3 : resolveRes env.footerExists env.footerImg Role.footer with
        | error e => exact ⟨rfl, rfl⟩
        | ok b3 =>
          cases h4 : resolveRes req.hasBodyImage env.bodyImg Role.bodyImg with
          | error e => exact ⟨rfl, rfl⟩
          | ok b4 =>
            cases hc : env.conn <;> exact ⟨rfl, rfl⟩

/-- Witness for C10 is not required (no hypotheses), but the determinism
is also directly visible on the fixtures. -/
theorem claim_C10_wit :
    (printReceipt envAll reqHW 3 [(Role.footer, 9)]).emitted =
      (printReceipt envAll reqHW 8 []).emitted :=
  (claim_C10 envAll reqHW 3 8 [(Role.footer, 9)] []).2

end Receipt
